import Mathlib

/-!
Verification development for the bashlet sandbox-execution core.

This file gives a shallow embedding of the parts of the Rust source that the
properties below are about:

* the error taxonomy and its retryability flag (`src/error.rs`),
* the exit-code mapping of every backend `execute` path
  (`src/sandbox/backends/{wasmer,docker,ssh}.rs`, `guest-agent/src/main.rs`),
* the MicroVM spawn / socket-wait state machine
  (`src/sandbox/backends/firecracker/vm.rs`),
* the `health_check` implementations (`src/sandbox/traits.rs`, `ssh.rs`),
* the session record, session store and TTL parsing (`src/session/mod.rs`),
* the backend factory auto-selection (`src/sandbox/factory.rs`),
* the `shutdown` state machines of the stateful backends.

Modelling conventions: Rust `u64`/`u32`/`u8` quantities (epoch seconds,
millisecond timestamps, counters) are modelled as `Nat`, with `% 2 ^ w`
inserted wherever a `u64`/`u32` operation can leave the range: the masks the
source writes itself (`& 0xFFFFFF`, `& 0xFF`, the `u32` counter wrap) and the
unchecked `u64` addition `last_activity + ttl` in `is_expired`, which in a
release build wraps modulo `2 ^ 64` (a debug build panics there instead).
`i32` exit codes are modelled as `Int`.  Process spawning, sockets and the
filesystem are environments passed explicitly: a spawned process is an
abstract outcome (spawn failure, or an exit status plus captured output), and
the session store is the list of on-disk `<stem>.json` records.
-/

deriving instance DecidableEq for Except

namespace Bashlet

/-- Result of executing a command inside a sandbox
(`CommandResult` in `src/sandbox/mod.rs`): lossily decoded stdout/stderr and
the `i32` exit code. -/
structure CommandResult where
  stdout : String
  stderr : String
  exit_code : Int
deriving Repr, DecidableEq

/-- The error taxonomy.  The variants up to `Other` are exactly those of
`BashletError` in `src/src/error.rs` (the variant called `Io` in the source is
spelled `IoError` here; payloads irrelevant to the properties are kept as the
message strings the source formats).

Modelled from the spec: the five sandbox-backend variants
`BackendNotAvailable`, `HypervisorApi`, `VMBootFailed`, `VMCommunication` and
`AssetDownload` are absent from the `src/error.rs` revision shipped under
`src/`, but they are constructed throughout `src/sandbox/**` (e.g.
`BashletError::VMCommunication(..)` in `firecracker/vsock.rs`), so the enum
revision those files compile against must contain them; they are appended
here following the spec's error table and the constructor sites. -/
inductive BashletError where
  | Config (message : String)
  | ConfigNotFound (path : String)
  | ProviderNotFound (provider : String)
  | ApiKeyMissing (provider env_var : String)
  | ProviderApi (message : String) (status : Option Nat)
  | RateLimited (retry_after : Option Nat)
  | SandboxInit (message : String)
  | WasmCompilation (message : String)
  | SandboxExecution (message : String)
  | SandboxTimeout (seconds : Nat)
  | MountPathNotFound (path : String)
  | WasmNotFound (path : String)
  | SessionNotFound (id : String)
  | SessionExpired (id : String)
  | SessionNameExists (name : String)
  | MaxIterationsExceeded (max : Nat)
  | ToolNotFound (tool : String)
  | InvalidToolInput (tool reason : String)
  | IoError (message : String)
  | Json (message : String)
  | TomlParse (message : String)
  | Http (message : String)
  | Other (message : String)
  | BackendNotAvailable (backend reason : String)
  | HypervisorApi (status : Nat) (body : String)
  | VMBootFailed (message : String)
  | VMCommunication (message : String)
  | AssetDownload (url : String)
deriving Repr, DecidableEq

/-- `BashletError::is_retryable` (`src/error.rs` lines 87-91):
`matches!(self, Self::RateLimited { .. } | Self::SandboxTimeout { .. })`. -/
def BashletError.is_retryable : BashletError → Bool
  | .RateLimited _ => true
  | .SandboxTimeout _ => true
  | _ => false

/-! ## String primitives

Lean's built-in `String.trim` / `String.toLower` / `String.endsWith` do not
reduce in the kernel, so the Rust string operations the source uses are
modelled directly over the character list of the string (the claims' inputs
are ASCII, where `Char.toLower` agrees with Rust `to_lowercase`). -/

/-- Rust `str::trim`: strip leading and trailing whitespace. -/
def rustTrim (s : String) : String :=
  String.mk (((s.data.dropWhile Char.isWhitespace).reverse.dropWhile
    Char.isWhitespace).reverse)

/-- Rust `str::to_lowercase` (ASCII fragment). -/
def rustToLowercase (s : String) : String :=
  String.mk (s.data.map Char.toLower)

/-- Rust `str::ends_with(c)` for a single character. -/
def strEndsWithChar (s : String) (c : Char) : Bool :=
  s.data.getLast? == some c

/-- Rust `&s[..s.len() - 1]` for a string known to end in a 1-byte
character. -/
def strDropRight1 (s : String) : String :=
  String.mk s.data.dropLast

/-! ## TTL parsing (`parse_ttl` in `src/session/mod.rs`) -/

/-- Rust `str::parse::<u64>`: an optional leading `+`, then one or more ASCII
digits, value at most `u64::MAX`. -/
def parseU64 (s : String) : Option Nat :=
  let l := if s.data.head? == some '+' then s.data.drop 1 else s.data
  if l.isEmpty then none
  else if l.all Char.isDigit then
    let n := l.foldl (fun acc c => acc * 10 + (c.toNat - 48)) 0
    if n < 2 ^ 64 then some n else none
  else none

/-- The `(num_str, multiplier)` pair computed by `parse_ttl` from the trimmed,
lowercased input: strip a unit suffix `s`/`m`/`h`/`d`, defaulting to
seconds. -/
def ttlSplit (t : String) : String × Nat :=
  if strEndsWithChar t 's' then (strDropRight1 t, 1)
  else if strEndsWithChar t 'm' then (strDropRight1 t, 60)
  else if strEndsWithChar t 'h' then (strDropRight1 t, 3600)
  else if strEndsWithChar t 'd' then (strDropRight1 t, 86400)
  else (t, 1)

/-- `parse_ttl` (`src/session/mod.rs` lines 322-347): trim and lowercase, map
an empty string to `Config`, strip the unit suffix, parse the rest as `u64`
and scale by the unit. -/
def parse_ttl (s : String) : Except BashletError Nat :=
  if (rustToLowercase (rustTrim s)).data.isEmpty then
    .error (.Config "Empty TTL value")
  else
    match parseU64 (ttlSplit (rustToLowercase (rustTrim s))).1 with
    | some n => .ok (n * (ttlSplit (rustToLowercase (rustTrim s))).2)
    | none =>
      .error (.Config ("Invalid TTL value: " ++ rustToLowercase (rustTrim s)))

/-! ## Session IDs (`generate_session_id`, `format_base36`) -/

/-- The digit alphabet `b"0123456789abcdefghijklmnopqrstuvwxyz"` indexed by a
digit value. -/
def base36Char (d : Nat) : Char :=
  "0123456789abcdefghijklmnopqrstuvwxyz".toList.getD d 'x'

/-- The loop body of `format_base36`: digits pushed least-significant first
(`result.push(CHARS[(n % 36) as usize]); n /= 36` while `n > 0`). -/
def base36Digits : Nat → List Char
  | 0 => []
  | n + 1 => base36Char ((n + 1) % 36) :: base36Digits ((n + 1) / 36)
decreasing_by exact Nat.div_lt_self (Nat.succ_pos n) (by omega)

/-- `format_base36` (`src/session/mod.rs` lines 305-319): `"0"` for zero, else
the reversed digit list. -/
def format_base36 (n : Nat) : String :=
  if n = 0 then "0" else String.mk (base36Digits n).reverse

/-- Decoding helper for the injectivity proof: the digit value of a base-36
character. -/
def base36CharVal (c : Char) : Nat :=
  if c.toNat ≥ 97 then c.toNat - 87 else c.toNat - 48

/-- Decoding helper: the number denoted by a least-significant-first base-36
digit list. -/
def ofBase36Digits : List Char → Nat
  | [] => 0
  | c :: rest => base36CharVal c + 36 * ofBase36Digits rest

/-- The combined value of `generate_session_id`
(`src/session/mod.rs` line 300): `(timestamp & 0xFFFFFF) << 8 | (counter as
u64 & 0xFF)`. -/
def combinedId (timestamp counter : Nat) : Nat :=
  ((timestamp % 2 ^ 24) <<< 8) ||| (counter % 2 ^ 8)

/-- `generate_session_id` as a function of the millisecond clock reading and
the atomic counter value of the call. -/
def generate_session_id (timestamp counter : Nat) : String :=
  format_base36 (combinedId timestamp counter)

/-- The id produced by the k-th `generate_session_id` call of a process whose
millisecond clock reads `ts k` at call k: the `AtomicU32` counter starts at 0
and wraps at `2 ^ 32`. -/
def sessionIdAt (ts : Nat → Nat) (k : Nat) : String :=
  generate_session_id (ts k) (k % 2 ^ 32)

/-! ## Backend execute paths and their exit-code mapping -/

/-- A mount (`Mount` in `src/cli/args.rs` / `SerializableMount`): the Boolean
`host_exists` records whether `mount.host_path.exists()` holds at execute
time. -/
structure Mount where
  host_path : String
  guest_path : String
  readonly : Bool
  host_exists : Bool
deriving Repr, DecidableEq

/-- Outcome of spawning a subprocess and collecting its output
(`tokio::process::Command::output`): either the spawn itself failed, or the
process ran and terminated with captured output and an exit status.
`status_code = none` models `status.code() == None` (terminated by a
signal). -/
inductive SpawnOutcome where
  | failure (message : String)
  | output (stdout stderr : String) (status_code : Option Int)
deriving Repr, DecidableEq

/-- Tail of `WasmerBackend::execute` (`src/sandbox/backends/wasmer.rs` lines
127-184): reject the first mount whose host path is missing, surface a spawn
failure as `SandboxExecution`, and otherwise build a `CommandResult` with
`exit_code = output.status.code().unwrap_or(1)`. -/
def wasmerExecute (mounts : List Mount) (spawn : SpawnOutcome) :
    Except BashletError CommandResult :=
  match mounts.find? (fun m => !m.host_exists) with
  | some m => .error (.MountPathNotFound m.host_path)
  | none =>
    match spawn with
    | .failure e => .error (.SandboxExecution ("Failed to execute wasmer: " ++ e))
    | .output out err code => .ok ⟨out, err, code.getD 1⟩

/-- `DockerBackend::execute_stateless` (`src/sandbox/backends/docker.rs` lines
344-410): same mount check, spawn failure as `SandboxExecution`, and
`exit_code = output.status.code().unwrap_or(1)`. -/
def dockerExecuteStateless (mounts : List Mount) (spawn : SpawnOutcome) :
    Except BashletError CommandResult :=
  match mounts.find? (fun m => !m.host_exists) with
  | some m => .error (.MountPathNotFound m.host_path)
  | none =>
    match spawn with
    | .failure e => .error (.SandboxExecution ("Failed to execute docker run: " ++ e))
    | .output out err code => .ok ⟨out, err, code.getD 1⟩

/-- `DockerBackend::execute_in_session` (`docker.rs` lines 298-341): no mount
check, `exit_code = output.status.code().unwrap_or(1)`. -/
def dockerExecuteInSession (spawn : SpawnOutcome) :
    Except BashletError CommandResult :=
  match spawn with
  | .failure e => .error (.SandboxExecution ("Failed to execute docker exec: " ++ e))
  | .output out err code => .ok ⟨out, err, code.getD 1⟩

/-- `SshBackend::execute_ssh` (`src/sandbox/backends/ssh.rs` lines 217-271):
spawn failure as `SandboxExecution`, `exit_code =
output.status.code().unwrap_or(1)`. -/
def sshExecute (spawn : SpawnOutcome) : Except BashletError CommandResult :=
  match spawn with
  | .failure e => .error (.SandboxExecution ("Failed to execute SSH command: " ++ e))
  | .output out err code => .ok ⟨out, err, code.getD 1⟩

/-- Responses of the in-VM guest agent (`Response` in
`guest-agent/src/main.rs`). -/
inductive AgentResponse where
  | execute (exit_code : Int) (stdout stderr : String)
  | read_file (content : String)
  | write_file (success : Bool)
  | pong
  | error (message : String)
deriving Repr, DecidableEq

/-- `execute_command` of the guest agent (`guest-agent/src/main.rs` lines
203-241), as a function of the `/bin/sh -c` spawn outcome: on success the
response carries `exit_code = output.status.code().unwrap_or(-1)`; a spawn
failure becomes an `error` response. -/
def guestAgentExecuteCommand (spawn : SpawnOutcome) : AgentResponse :=
  match spawn with
  | .output out err code => .execute (code.getD (-1)) out err
  | .failure e => .error ("Failed to execute command: " ++ e)

/-! ## Health checks -/

/-- The default `SandboxBackend::health_check` (`src/sandbox/traits.rs` lines
67-72), as a function of the outcome of `execute("echo ok")`: `Ok(exit_code
== 0)` on a result, `Ok(false)` on an error.  Used unchanged by the WASM,
container and MicroVM backends. -/
def defaultHealthCheck (r : Except BashletError CommandResult) :
    Except BashletError Bool :=
  match r with
  | .ok res => .ok (res.exit_code == 0)
  | .error _ => .ok false

/-- `SshBackend::health_check` (`src/sandbox/backends/ssh.rs` lines 439-444):
additionally requires `result.stdout.trim() == "ok"`. -/
def sshHealthCheck (r : Except BashletError CommandResult) :
    Except BashletError Bool :=
  match r with
  | .ok res => .ok (res.exit_code == 0 && rustTrim res.stdout == "ok")
  | .error _ => .ok false

/-! ## MicroVM spawn and socket wait (`firecracker/vm.rs`) -/

/-- Environment of `FirecrackerVM::spawn`: whether the
`Command::new(binary).spawn()` call succeeds, whether the API socket file
exists at polling attempt `k` (attempts are numbered `1..=50`, one every
100 ms), and the outcome of `FirecrackerApiClient::new` once the socket is
up. -/
structure SpawnEnv where
  hypervisor_spawns : Bool
  socket_exists_at : Nat → Bool
  api_client_ok : Bool

/-- Observable outcome of `FirecrackerVM::spawn` (`vm.rs` lines 42-77):
whether it returned a VM handle or an error, whether the hypervisor process
was spawned, and whether that process was killed before `spawn` returned.
The source never calls `kill` inside `spawn`; on the error paths the local
`std::process::Child` is dropped, and dropping a `Child` does not terminate
the process (the `Drop` impl that kills belongs to `FirecrackerVM`, which is
only constructed on the success path). -/
structure SpawnResult where
  result : Except BashletError Unit
  process_spawned : Bool
  process_killed : Bool
deriving Repr

/-- `FirecrackerVM::wait_for_socket` (`vm.rs` lines 80-96): poll existence for
up to `max_attempts = 50` attempts; the error message interpolates the socket
path. -/
def wait_for_socket (socket_exists_at : Nat → Bool) (socket_path : String) :
    Except BashletError Unit :=
  if (List.range' 1 50).any socket_exists_at then .ok ()
  else .error (.VMBootFailed ("Timeout waiting for socket: " ++ socket_path))

/-- `FirecrackerVM::spawn` (`vm.rs` lines 42-77) as a state observation: spawn
the hypervisor (failure ⇒ `VMBootFailed`, nothing spawned), wait for the API
socket (`?` propagates the timeout with the process left running), then build
the API client (`?` likewise). -/
def firecrackerSpawn (env : SpawnEnv) (socket_path : String) : SpawnResult :=
  if !env.hypervisor_spawns then
    { result := .error (.VMBootFailed "Failed to spawn Firecracker: spawn error")
      process_spawned := false
      process_killed := false }
  else
    match wait_for_socket env.socket_exists_at socket_path with
    | .error e =>
      { result := .error e, process_spawned := true, process_killed := false }
    | .ok _ =>
      if env.api_client_ok then
        { result := .ok (), process_spawned := true, process_killed := false }
      else
        { result := .error (.BackendNotAvailable "firecracker" "api client")
          process_spawned := true
          process_killed := false }

/-! ## Shutdown state machines -/

/-- Mutable state of `DockerBackend` relevant to `shutdown`: the
`container_id: Mutex<Option<String>>` slot. -/
structure DockerState where
  container_id : Option String
deriving Repr, DecidableEq

/-- Environment of `DockerBackend::stop_container`: whether the `docker stop`
and `docker rm -f` subprocesses can be spawned at all (a non-zero exit of
either only logs a warning; only a spawn failure is an error). -/
structure DockerEnv where
  stop_spawns : Bool
  rm_spawns : Bool

/-- `DockerBackend::shutdown` (`docker.rs` lines 546-556): with a stored
container id, run `stop_container` (propagating its error, in which case the
id is not cleared) and clear the id; with no id, do nothing. -/
def dockerShutdown (env : DockerEnv) (s : DockerState) :
    DockerState × Except BashletError Unit :=
  match s.container_id with
  | none => (s, .ok ())
  | some _ =>
    if !env.stop_spawns then
      (s, .error (.SandboxExecution "Failed to stop container: spawn error"))
    else if !env.rm_spawns then
      (s, .error (.SandboxExecution "Failed to remove container: spawn error"))
    else (⟨none⟩, .ok ())

/-- Mutable state of `SshBackend` relevant to `shutdown`: the control-socket
path and connected slots, plus whether the control-socket file exists on
disk. -/
structure SshState where
  control_path : Option String
  connected : Bool
  socket_file_exists : Bool
deriving Repr, DecidableEq

/-- Environment of `SshBackend::close_control_master`: whether the
`ssh -O exit` subprocess can be spawned (its non-zero exit only warns). -/
structure SshEnv where
  ssh_spawns : Bool

/-- `SshBackend::close_control_master` (`ssh.rs` lines 295-342): with no
stored control path, return immediately; otherwise run `ssh -O exit`
(spawn failure is an error and nothing is cleared), remove the socket file and
clear both slots. -/
def closeControlMaster (env : SshEnv) (s : SshState) :
    SshState × Except BashletError Unit :=
  match s.control_path with
  | none => (s, .ok ())
  | some _ =>
    if !env.ssh_spawns then
      (s, .error (.SandboxExecution "Failed to close SSH connection: spawn error"))
    else ({ control_path := none, connected := false, socket_file_exists := false }, .ok ())

/-- `SshBackend::shutdown` (`ssh.rs` lines 432-437): close the control master
when `use_control_master` is set, otherwise do nothing. -/
def sshShutdown (use_control_master : Bool) (env : SshEnv) (s : SshState) :
    SshState × Except BashletError Unit :=
  if use_control_master then closeControlMaster env s else (s, .ok ())

/-- State of a `FirecrackerVM` relevant to `shutdown`: the `started` flag, the
hypervisor process, and the two socket files the instance owns. -/
structure VMState where
  started : Bool
  process_alive : Bool
  api_socket_exists : Bool
  vsock_exists : Bool
deriving Repr, DecidableEq

/-- `FirecrackerVM::shutdown` (`vm.rs` lines 181-203): if started, attempt
`SendCtrlAltDel` (failure only warns) and sleep; in all cases kill the process
(result ignored), remove both socket files (results ignored), clear `started`
and return `Ok`. -/
def firecrackerShutdown (s : VMState) : VMState × Except BashletError Unit :=
  let _ := s
  ({ started := false, process_alive := false
     api_socket_exists := false, vsock_exists := false }, .ok ())

/-- The default `SandboxBackend::shutdown` (`src/sandbox/traits.rs` lines
61-63), used by the stateless WASM backend: a no-op returning `Ok`. -/
def defaultShutdown : Except BashletError Unit := .ok ()

/-! ## Sessions (`src/session/mod.rs`) -/

/-- `SerializableMount`: the persisted form of a mount. -/
structure SerializableMount where
  host_path : String
  guest_path : String
  readonly : Bool
deriving Repr, DecidableEq

/-- `Session` (`src/session/mod.rs` lines 13-33). -/
structure Session where
  id : String
  name : Option String
  mounts : List SerializableMount
  env_vars : List (String × String)
  workdir : String
  wasm_binary : Option String
  created_at : Nat
  last_activity : Nat
  ttl_seconds : Option Nat
deriving Repr, DecidableEq

/-- `Session::is_expired` (lines 95-105), with the `SystemTime::now()` reading
passed explicitly: `now > last_activity + ttl` when a TTL is set, else false.
The sum is a plain `u64` addition with no overflow check, so it is taken
modulo `2 ^ 64` (release-profile wrapping semantics; a debug build would
panic on the same inputs). -/
def Session.is_expired (s : Session) (now : Nat) : Bool :=
  match s.ttl_seconds with
  | some ttl => decide (now > (s.last_activity + ttl) % 2 ^ 64)
  | none => false

/-- `Session::new` (lines 65-92), with the epoch-seconds clock reading and the
id-generator inputs (millisecond clock, counter) passed explicitly:
`created_at` and `last_activity` are both set to `now`. -/
def Session.new (name : Option String) (mounts : List SerializableMount)
    (env_vars : List (String × String)) (workdir : String)
    (wasm_binary : Option String) (ttl_seconds : Option Nat)
    (now id_timestamp id_counter : Nat) : Session :=
  { id := generate_session_id id_timestamp id_counter
    name := name
    mounts := mounts
    env_vars := env_vars
    workdir := workdir
    wasm_binary := wasm_binary
    created_at := now
    last_activity := now
    ttl_seconds := ttl_seconds }

/-- The on-disk session directory: the parsed record of each `<stem>.json`
file, keyed by the file stem, in directory-enumeration order.  (Files whose
contents do not parse are outside the model: `list` skips them and the claims
under study never reach them.) -/
abbrev SessionStore := List (String × Session)

/-- `SessionManager::list` (lines 224-250): read every record and sort by
`created_at` descending; Rust's `sort_by` is stable, as is `mergeSort`. -/
def managerList (store : SessionStore) : List Session :=
  (store.map Prod.snd).mergeSort (fun a b => decide (b.created_at ≤ a.created_at))

/-- `SessionManager::delete` (lines 198-221): remove the file `<q>.json` if it
exists; otherwise scan the listed records for one named `q` and remove the
file named by its `id` (a missing file is an I/O error); otherwise
`SessionNotFound`. -/
def managerDelete (store : SessionStore) (q : String) :
    Except BashletError Unit × SessionStore :=
  if store.any (fun e => e.1 == q) then
    (.ok (), store.filter (fun e => e.1 != q))
  else
    match (managerList store).find? (fun s => s.name == some q) with
    | some s =>
      if store.any (fun e => e.1 == s.id) then
        (.ok (), store.filter (fun e => e.1 != s.id))
      else (.error (.IoError "No such file or directory"), store)
    | none => (.error (.SessionNotFound q), store)

/-- `SessionManager::get` (lines 160-195): direct id lookup first (expired ⇒
delete the file, `SessionExpired`); else scan the listed records by name
(expired ⇒ delete by its id, `SessionExpired`); else `SessionNotFound`.  The
`?` on the inner `delete` calls propagates a delete failure. -/
def managerGet (store : SessionStore) (now : Nat) (q : String) :
    Except BashletError Session × SessionStore :=
  match store.find? (fun e => e.1 == q) with
  | some e =>
    if e.2.is_expired now then
      match managerDelete store q with
      | (.ok _, store2) => (.error (.SessionExpired q), store2)
      | (.error err, store2) => (.error err, store2)
    else (.ok e.2, store)
  | none =>
    match (managerList store).find? (fun s => s.name == some q) with
    | some s =>
      if s.is_expired now then
        match managerDelete store s.id with
        | (.ok _, store2) => (.error (.SessionExpired q), store2)
        | (.error err, store2) => (.error err, store2)
      else (.ok s, store)
    | none => (.error (.SessionNotFound q), store)

/-- A concrete sample record used to exercise the store lemmas: a named
session whose TTL has elapsed by time 100. -/
def sampleExpired : Session :=
  { id := "a1", name := some "env1", mounts := [], env_vars := []
    workdir := "/workspace", wasm_binary := none
    created_at := 10, last_activity := 10, ttl_seconds := some 5 }

/-! ## Backend factory (`src/sandbox/factory.rs`) -/

/-- `BackendType` (`src/config/types.rs`). -/
inductive BackendType where
  | Wasmer
  | Firecracker
  | Docker
  | Auto
deriving Repr, DecidableEq

/-- Compile-time configuration of the factory: the `wasmer` and `firecracker`
cargo features and the target OS `cfg` flags. -/
structure BuildFlags where
  wasmer_feature : Bool
  firecracker_feature : Bool
  target_linux : Bool

/-- `WasmerBackend::is_available` (`wasmer.rs` lines 104-110): always true,
since the runtime can be downloaded on demand. -/
def wasmerIsAvailable : Bool := true

/-- `resolve_backend_type` (`factory.rs` lines 98-151), with the availability
probes (`FirecrackerBackend::is_available()`, `DockerBackend::is_available()`)
passed as Booleans.  `Auto` probes MicroVM (only when compiled in on Linux),
then the container daemon, then falls back to the WASM backend without any
probe whenever its feature is compiled in. -/
def resolve_backend_type (flags : BuildFlags) (fc_available docker_available : Bool) :
    BackendType → Except BashletError BackendType
  | .Auto =>
    if flags.firecracker_feature && flags.target_linux && fc_available then
      .ok .Firecracker
    else if docker_available then .ok .Docker
    else if flags.wasmer_feature then .ok .Wasmer
    else .error (.BackendNotAvailable "auto" "No sandbox backends available")
  | .Firecracker =>
    if flags.firecracker_feature && flags.target_linux && !fc_available then
      .error (.BackendNotAvailable "firecracker"
        "Firecracker requires Linux with KVM support (/dev/kvm)")
    else .ok .Firecracker
  | .Docker =>
    if !docker_available then
      .error (.BackendNotAvailable "docker"
        "Docker daemon is not accessible. Ensure Docker is installed and running.")
    else .ok .Docker
  | .Wasmer => .ok .Wasmer

/-! ## Theorems -/

/-- Helper: `parse_ttl` either succeeds or fails with a `Config` error; no
other error kind can come out of it. -/
theorem parse_ttl_ok_or_config (s : String) :
    (∃ n, parse_ttl s = .ok n) ∨ ∃ m, parse_ttl s = .error (.Config m) := by
  unfold parse_ttl
  split
  · exact .inr ⟨_, rfl⟩
  · split
    · exact .inl ⟨_, rfl⟩
    · exact .inr ⟨_, rfl⟩

/-- C4 counterexample: the claim marks `VMCommunication` and `AssetDownload`
as retryable, but `is_retryable` matches only `RateLimited` and
`SandboxTimeout`; moreover `RateLimited` is retryable although the claim's
closed set omits it. -/
theorem c4_retryable_counterexample :
    (BashletError.VMCommunication "Connection failed").is_retryable = false ∧
    (BashletError.AssetDownload "https://example.invalid/kernel").is_retryable = false ∧
    (BashletError.RateLimited none).is_retryable = true :=
  ⟨rfl, rfl, rfl⟩

/-- C4 (amended): an error is retryable exactly when it is `RateLimited` or
`SandboxTimeout`; every other kind — including `VMCommunication` and
`AssetDownload` — is not retryable. -/
theorem c4_retryable_amended (e : BashletError) :
    e.is_retryable = true ↔
      (∃ r, e = .RateLimited r) ∨ ∃ s, e = .SandboxTimeout s := by
  cases e <;> simp [BashletError.is_retryable]

/-- C6: TTL parsing accepts `<N>[s|m|h|d]` with seconds as the default unit on
the claim's inputs, returns a `Config` error on the empty and unparseable
inputs, and more generally never fails with anything but a `Config` error. -/
theorem c6_parse_ttl :
    parse_ttl "30s" = .ok 30 ∧
    parse_ttl "5m" = .ok 300 ∧
    parse_ttl "1h" = .ok 3600 ∧
    parse_ttl "2d" = .ok 172800 ∧
    parse_ttl "60" = .ok 60 ∧
    parse_ttl "" = .error (.Config "Empty TTL value") ∧
    parse_ttl "abc" = .error (.Config "Invalid TTL value: abc") ∧
    ∀ s, (∃ n, parse_ttl s = .ok n) ∨ ∃ m, parse_ttl s = .error (.Config m) :=
  ⟨by decide, by decide, by decide, by decide, by decide, by decide, by decide,
   parse_ttl_ok_or_config⟩

/-- C1 counterexample: when the WASM backend's spawned process terminates
without an exit status, the returned `CommandResult` has `exit_code = 1`
(`unwrap_or(1)` in `wasmer.rs` line 170), not the claimed sentinel `-1`. -/
theorem c1_exit_code_counterexample :
    wasmerExecute [] (.output "" "" none) = .ok ⟨"", "", 1⟩ ∧ (1 : Int) ≠ -1 :=
  ⟨rfl, by decide⟩

/-- C1 (amended): when the spawned process terminates without an exit status,
the WASM, container (both modes) and remote-shell backends return
`exit_code = 1`; only the in-VM guest agent uses the sentinel `-1`. -/
theorem c1_exit_code_amended (out err : String) (mounts : List Mount)
    (hm : ∀ m ∈ mounts, m.host_exists = true) :
    wasmerExecute mounts (.output out err none) = .ok ⟨out, err, 1⟩ ∧
    dockerExecuteStateless mounts (.output out err none) = .ok ⟨out, err, 1⟩ ∧
    dockerExecuteInSession (.output out err none) = .ok ⟨out, err, 1⟩ ∧
    sshExecute (.output out err none) = .ok ⟨out, err, 1⟩ ∧
    guestAgentExecuteCommand (.output out err none) = .execute (-1) out err := by
  have hfind : mounts.find? (fun m => !m.host_exists) = none :=
    List.find?_eq_none.mpr (fun m hmem => by simp [hm m hmem])
  refine ⟨?_, ?_, rfl, rfl, rfl⟩
  · simp [wasmerExecute, hfind]
  · simp [dockerExecuteStateless, hfind]

/-- C1 amended witness at concrete inputs. -/
theorem c1_exit_code_amended_witness :
    wasmerExecute [] (.output "o" "e" none) = .ok ⟨"o", "e", 1⟩ ∧
    dockerExecuteStateless [] (.output "o" "e" none) = .ok ⟨"o", "e", 1⟩ ∧
    dockerExecuteInSession (.output "o" "e" none) = .ok ⟨"o", "e", 1⟩ ∧
    sshExecute (.output "o" "e" none) = .ok ⟨"o", "e", 1⟩ ∧
    guestAgentExecuteCommand (.output "o" "e" none) = .execute (-1) "o" "e" :=
  c1_exit_code_amended "o" "e" [] (by simp)

/-- C3 counterexample: for the remote-shell backend, `health_check` is not
equivalent to `exit_code == 0`: on a result with exit code 0 but stdout other
than `ok`, it returns false. -/
theorem c3_health_check_counterexample :
    sshHealthCheck (.ok ⟨"not-ok", "", 0⟩) = .ok false ∧
    (CommandResult.mk "not-ok" "" 0).exit_code = 0 :=
  ⟨by decide, rfl⟩

/-- C3 (amended): the default `health_check` — used by the WASM, container
and MicroVM backends — returns true iff `execute("echo ok")` produced a
result with exit code 0, and false on any error; the remote-shell backend
additionally requires the trimmed stdout to equal `"ok"`. -/
theorem c3_health_check_amended (r : Except BashletError CommandResult) :
    (defaultHealthCheck r = .ok true ↔
      ∃ res, r = .ok res ∧ res.exit_code = 0) ∧
    (sshHealthCheck r = .ok true ↔
      ∃ res, r = .ok res ∧ res.exit_code = 0 ∧ rustTrim res.stdout = "ok") ∧
    (∀ e, defaultHealthCheck (.error e) = .ok false) ∧
    (∀ e, sshHealthCheck (.error e) = .ok false) := by
  refine ⟨?_, ?_, fun e => rfl, fun e => rfl⟩
  · cases r with
    | ok res =>
      constructor
      · intro h
        exact ⟨res, rfl, by simpa using Except.ok.inj h⟩
      · rintro ⟨res2, heq, hcode⟩
        obtain rfl : res2 = res := (Except.ok.inj heq).symm
        simp [defaultHealthCheck, hcode]
    | error e => simp [defaultHealthCheck]
  · cases r with
    | ok res =>
      constructor
      · intro h
        have h2 := Except.ok.inj h
        simp only [Bool.and_eq_true, beq_iff_eq] at h2
        exact ⟨res, rfl, h2.1, h2.2⟩
      · rintro ⟨res2, heq, hcode, hout⟩
        obtain rfl : res2 = res := (Except.ok.inj heq).symm
        simp [sshHealthCheck, hcode, hout]
    | error e => simp [sshHealthCheck]

/-- C3 amended witness at a concrete healthy result. -/
theorem c3_health_check_amended_witness :
    (defaultHealthCheck (.ok ⟨"ok\n", "", 0⟩) = .ok true ↔
      ∃ res, (.ok ⟨"ok\n", "", 0⟩ : Except BashletError CommandResult) =
        .ok res ∧ res.exit_code = 0) ∧
    (sshHealthCheck (.ok ⟨"ok\n", "", 0⟩) = .ok true ↔
      ∃ res, (.ok ⟨"ok\n", "", 0⟩ : Except BashletError CommandResult) =
        .ok res ∧ res.exit_code = 0 ∧ rustTrim res.stdout = "ok") ∧
    (∀ e, defaultHealthCheck (.error e) = .ok false) ∧
    (∀ e, sshHealthCheck (.error e) = .ok false) :=
  c3_health_check_amended (.ok ⟨"ok\n", "", 0⟩)

/-- C4 amended witness at a concrete error value. -/
theorem c4_retryable_amended_witness :
    (BashletError.SandboxTimeout 30).is_retryable = true ↔
      (∃ r, BashletError.SandboxTimeout 30 = .RateLimited r) ∨
      ∃ s, BashletError.SandboxTimeout 30 = .SandboxTimeout s :=
  c4_retryable_amended (.SandboxTimeout 30)

/-- C2: when the hypervisor process spawns but the API socket never appears
within the 50-attempt budget, `FirecrackerVM::spawn` fails with
`VMBootFailed` — but the already-spawned hypervisor process is NOT
terminated: the error propagates with `?` before any VM handle (and hence its
killing destructor) exists, and dropping the raw process handle does not kill
the process.  This evaluates the model at the failing input. -/
theorem c2_socket_timeout_leaks_process :
    firecrackerSpawn ⟨true, fun _ => false, true⟩ "/tmp/firecracker-fc.sock" =
      { result := .error (.VMBootFailed
          "Timeout waiting for socket: /tmp/firecracker-fc.sock")
        process_spawned := true
        process_killed := false } := by
  simp [firecrackerSpawn, wait_for_socket]

/-- C9 counterexample: "never expired at creation for every ttl_seconds
value" fails — at `ttl = 2 ^ 64 - 1` the unchecked `u64` sum
`last_activity + ttl` wraps to `now - 1`, so a session constructed at time
100 is already expired at the construction instant. -/
theorem c9_new_session_expired_counterexample :
    (Session.new none [] [] "/workspace" none (some (2 ^ 64 - 1))
        100 0 0).created_at =
      (Session.new none [] [] "/workspace" none (some (2 ^ 64 - 1))
        100 0 0).last_activity ∧
    (Session.new none [] [] "/workspace" none (some (2 ^ 64 - 1))
        100 0 0).is_expired 100 = true :=
  ⟨rfl, by decide⟩

/-- C9 (amended): a freshly constructed session has
`created_at = last_activity`, and it is not expired at the construction
instant for `ttl_seconds = none` and for every `some ttl` whose `u64` sum
`now + ttl` does not overflow; for overflowing TTLs the release build's
wrapping addition makes the fresh session already expired (a debug build
panics there). -/
theorem c9_new_session_not_expired (name : Option String)
    (mounts : List SerializableMount) (env_vars : List (String × String))
    (workdir : String) (wasm_binary : Option String)
    (ttl_seconds : Option Nat) (now id_timestamp id_counter : Nat)
    (hno : ∀ t, ttl_seconds = some t → now + t < 2 ^ 64) :
    (Session.new name mounts env_vars workdir wasm_binary ttl_seconds
        now id_timestamp id_counter).created_at =
      (Session.new name mounts env_vars workdir wasm_binary ttl_seconds
        now id_timestamp id_counter).last_activity ∧
    (Session.new name mounts env_vars workdir wasm_binary ttl_seconds
        now id_timestamp id_counter).is_expired now = false := by
  refine ⟨rfl, ?_⟩
  cases ttl_seconds with
  | none => rfl
  | some ttl =>
    have hmod : (now + ttl) % 2 ^ 64 = now + ttl :=
      Nat.mod_eq_of_lt (hno ttl rfl)
    simp only [Session.new, Session.is_expired, hmod,
      decide_eq_false_iff_not]
    omega

/-- C9 amended witness at concrete construction arguments with a
non-overflowing TTL. -/
theorem c9_new_session_not_expired_witness :
    (Session.new (some "env1") [] [] "/workspace" none (some 30)
        1000 500000 0).created_at =
      (Session.new (some "env1") [] [] "/workspace" none (some 30)
        1000 500000 0).last_activity ∧
    (Session.new (some "env1") [] [] "/workspace" none (some 30)
        1000 500000 0).is_expired 1000 = false :=
  c9_new_session_not_expired (some "env1") [] [] "/workspace" none (some 30)
    1000 500000 0
    (by intro t ht
        obtain rfl : t = 30 := (Option.some.inj ht).symm
        norm_num)

/-- C10: `WasmerBackend::is_available` is unconditionally true, and with the
WASM feature compiled in, resolving `Auto` never returns an error (in
particular never `BackendNotAvailable`): it probes MicroVM then the container
daemon and, when both probes fail, falls back to the WASM backend. -/
theorem c10_auto_resolution (flags : BuildFlags) (fc_avail docker_avail : Bool)
    (hw : flags.wasmer_feature = true) :
    wasmerIsAvailable = true ∧
    (∀ e, resolve_backend_type flags fc_avail docker_avail .Auto ≠ .error e) ∧
    (fc_avail = false → docker_avail = false →
      resolve_backend_type flags fc_avail docker_avail .Auto = .ok .Wasmer) := by
  refine ⟨rfl, ?_, ?_⟩
  · intro e
    simp only [resolve_backend_type, hw]
    split
    · simp
    · split <;> simp
  · intro h1 h2
    simp [resolve_backend_type, hw, h1, h2]

/-- C10 witness at a concrete build configuration with both probes failing. -/
theorem c10_auto_resolution_witness :
    wasmerIsAvailable = true ∧
    (∀ e, resolve_backend_type ⟨true, true, true⟩ false false .Auto ≠ .error e) ∧
    (false = false → false = false →
      resolve_backend_type ⟨true, true, true⟩ false false .Auto = .ok .Wasmer) :=
  c10_auto_resolution ⟨true, true, true⟩ false false rfl

/-- C8: for every backend, once a `shutdown` call has completed successfully,
a second call (under any environment) leaves the state unchanged, removes
nothing further and returns `Ok`: container backend, remote-shell backend
(with or without control-mux), MicroVM, and the stateless default
(WASM backend). -/
theorem c8_shutdown_idempotent :
    (∀ (env env2 : DockerEnv) (s s2 : DockerState),
      dockerShutdown env s = (s2, .ok ()) →
      dockerShutdown env2 s2 = (s2, .ok ())) ∧
    (∀ (mux : Bool) (env env2 : SshEnv) (s s2 : SshState),
      sshShutdown mux env s = (s2, .ok ()) →
      sshShutdown mux env2 s2 = (s2, .ok ())) ∧
    (∀ s s2 : VMState, firecrackerShutdown s = (s2, .ok ()) →
      firecrackerShutdown s2 = (s2, .ok ())) ∧
    defaultShutdown = .ok () := by
  refine ⟨?_, ?_, ?_, rfl⟩
  · intro env env2 s s2 h
    rcases s with ⟨cid⟩
    cases cid with
    | none =>
      obtain rfl : s2 = ⟨none⟩ := congrArg Prod.fst h.symm
      rfl
    | some id =>
      unfold dockerShutdown at h
      simp only at h
      split at h
      · simp at h
      · split at h
        · simp at h
        · obtain rfl : s2 = ⟨none⟩ := congrArg Prod.fst h.symm
          rfl
  · intro mux env env2 s s2 h
    cases mux with
    | false =>
      unfold sshShutdown at h ⊢
      simp only [Bool.false_eq_true, if_false] at h ⊢
    | true =>
      unfold sshShutdown at h ⊢
      simp only [if_true] at h ⊢
      rcases s with ⟨cp, conn, sock⟩
      cases cp with
      | none =>
        obtain rfl : s2 = ⟨none, conn, sock⟩ := congrArg Prod.fst h.symm
        rfl
      | some p =>
        unfold closeControlMaster at h
        simp only at h
        split at h
        · simp at h
        · obtain rfl : s2 = ⟨none, false, false⟩ := congrArg Prod.fst h.symm
          rfl
  · intro s s2 h
    obtain rfl : s2 = ⟨false, false, false, false⟩ := congrArg Prod.fst h.symm
    rfl

/-- C8 witness: the second `shutdown` after a completed first call, for each
backend, at concrete states. -/
theorem c8_shutdown_idempotent_witness :
    dockerShutdown ⟨true, true⟩ ⟨none⟩ = (⟨none⟩, .ok ()) ∧
    sshShutdown true ⟨true⟩ ⟨none, false, false⟩ =
      (⟨none, false, false⟩, .ok ()) ∧
    firecrackerShutdown ⟨false, false, false, false⟩ =
      (⟨false, false, false, false⟩, .ok ()) :=
  ⟨c8_shutdown_idempotent.1 ⟨true, true⟩ ⟨true, true⟩ ⟨some "abc123"⟩ ⟨none⟩ rfl,
   c8_shutdown_idempotent.2.1 true ⟨true⟩ ⟨true⟩
     ⟨some "/tmp/bashlet-ssh.sock", true, true⟩ ⟨none, false, false⟩ rfl,
   c8_shutdown_idempotent.2.2.1 ⟨true, true, true, true⟩
     ⟨false, false, false, false⟩ rfl⟩

/-- Helper: decoding a base-36 digit character recovers the digit. -/
theorem base36CharVal_base36Char : ∀ d, d < 36 →
    base36CharVal (base36Char d) = d := by decide

/-- Helper: the digit list of `format_base36` denotes the encoded number. -/
theorem ofBase36_base36Digits (n : Nat) :
    ofBase36Digits (base36Digits n) = n := by
  induction n using Nat.strong_induction_on with
  | _ n ih =>
    match n with
    | 0 => simp [base36Digits, ofBase36Digits]
    | m + 1 =>
      rw [base36Digits]
      simp only [ofBase36Digits]
      rw [base36CharVal_base36Char _ (Nat.mod_lt _ (by norm_num)),
        ih ((m + 1) / 36) (Nat.div_lt_self (Nat.succ_pos m) (by norm_num))]
      omega

/-- Helper: a positive number with digit list `['0']` is impossible. -/
theorem base36Digits_ne_zero_digit {b : Nat} (hb : b ≠ 0)
    (h : base36Digits b = ['0']) : False := by
  have hv := ofBase36_base36Digits b
  rw [h] at hv
  simp only [ofBase36Digits] at hv
  have : base36CharVal '0' = 0 := by decide
  omega

/-- Helper: `format_base36` is injective, so distinct combined values yield
distinct session-id strings. -/
theorem format_base36_injective : Function.Injective format_base36 := by
  intro a b h
  unfold format_base36 at h
  by_cases ha : a = 0 <;> by_cases hb : b = 0
  · omega
  · exfalso
    rw [if_pos ha, if_neg hb] at h
    have h2 : ['0'] = (base36Digits b).reverse := congrArg String.data h
    have h3 : base36Digits b = ['0'] := by
      have h4 : (base36Digits b).reverse = ['0'] := h2.symm
      rw [List.reverse_eq_iff] at h4
      simpa using h4
    exact base36Digits_ne_zero_digit hb h3
  · exfalso
    rw [if_neg ha, if_pos hb] at h
    have h2 : (base36Digits a).reverse = ['0'] := congrArg String.data h
    have h3 : base36Digits a = ['0'] := by
      rw [List.reverse_eq_iff] at h2
      simpa using h2
    exact base36Digits_ne_zero_digit ha h3
  · rw [if_neg ha, if_neg hb] at h
    have h2 : (base36Digits a).reverse = (base36Digits b).reverse :=
      congrArg String.data h
    have h3 := List.reverse_injective h2
    have h4 := ofBase36_base36Digits a
    rw [h3, ofBase36_base36Digits b] at h4
    exact h4.symm

/-- Helper: the masked-shift-or combination equals the positional value. -/
theorem combinedId_eq (t c : Nat) :
    combinedId t c = 2 ^ 8 * (t % 2 ^ 24) + c % 2 ^ 8 := by
  unfold combinedId
  rw [Nat.shiftLeft_eq, Nat.mul_comm (t % 2 ^ 24) (2 ^ 8)]
  exact (Nat.mul_add_lt_is_or (Nat.mod_lt _ (by norm_num)) _).symm

/-- C7 counterexample: ids generated within one process are NOT always
distinct — the counter is masked to 8 bits, so the 0th and the 256th call in
the same millisecond produce the same id. -/
theorem c7_session_id_collision :
    ¬ ∀ (ts : Nat → Nat) (i j : Nat), i ≠ j →
      sessionIdAt ts i ≠ sessionIdAt ts j := by
  intro h
  exact h (fun _ => 0) 0 256 (by decide) (by decide)

/-- C7 (amended): every generated id equals the base-36 encoding of
`(timestamp_ms & 0xFFFFFF) << 8 | (counter & 0xFF)`, and two generated ids
are distinct whenever their (timestamp low 24 bits, call-number low 8 bits)
pairs differ; collision-freedom holds only up to that masking, not for
arbitrary pairs of calls. -/
theorem c7_session_id_amended :
    (∀ t c, generate_session_id t c =
      format_base36 (((t % 2 ^ 24) <<< 8) ||| (c % 2 ^ 8))) ∧
    ∀ (ts : Nat → Nat) (i j : Nat),
      ts i % 2 ^ 24 ≠ ts j % 2 ^ 24 ∨ i % 2 ^ 8 ≠ j % 2 ^ 8 →
      sessionIdAt ts i ≠ sessionIdAt ts j := by
  refine ⟨fun t c => rfl, ?_⟩
  intro ts i j hne heq
  unfold sessionIdAt generate_session_id at heq
  have h2 := format_base36_injective heq
  rw [combinedId_eq, combinedId_eq] at h2
  have hi : i % 2 ^ 32 % 2 ^ 8 = i % 2 ^ 8 :=
    Nat.mod_mod_of_dvd i (by norm_num)
  have hj : j % 2 ^ 32 % 2 ^ 8 = j % 2 ^ 8 :=
    Nat.mod_mod_of_dvd j (by norm_num)
  rw [hi, hj] at h2
  have hbi : i % 2 ^ 8 < 2 ^ 8 := Nat.mod_lt _ (by norm_num)
  have hbj : j % 2 ^ 8 < 2 ^ 8 := Nat.mod_lt _ (by norm_num)
  rcases hne with hne | hne <;> exact hne (by omega)

/-- C7 amended witness: the formula shape at one input, and distinctness of
two ids whose counters differ in the low 8 bits. -/
theorem c7_session_id_amended_witness :
    generate_session_id 5 7 =
      format_base36 (((5 % 2 ^ 24) <<< 8) ||| (7 % 2 ^ 8)) ∧
    sessionIdAt (fun _ => 0) 0 ≠ sessionIdAt (fun _ => 0) 1 :=
  ⟨c7_session_id_amended.1 5 7,
   c7_session_id_amended.2 (fun _ => 0) 0 1 (.inr (by decide))⟩

/-- C5: on a well-formed store (each file stem names the record's id),
`get(idOrName)` tries the direct id lookup first; else it scans the listed
records by name; an expired record found either way has its file deleted and
yields `SessionExpired{q}`; a total miss yields `SessionNotFound{q}`; a fresh
record is returned with the store untouched. -/
theorem c5_manager_get (store : SessionStore) (now : Nat) (q : String)
    (hwf : ∀ e ∈ store, e.1 = e.2.id) :
    (∀ e, store.find? (fun x => x.1 == q) = some e →
      e.2.is_expired now = false →
      managerGet store now q = (.ok e.2, store)) ∧
    (∀ e, store.find? (fun x => x.1 == q) = some e →
      e.2.is_expired now = true →
      managerGet store now q =
        (.error (.SessionExpired q), store.filter (fun x => x.1 != q))) ∧
    (store.find? (fun x => x.1 == q) = none →
      ∀ s, (managerList store).find? (fun t => t.name == some q) = some s →
        s.is_expired now = false →
        managerGet store now q = (.ok s, store)) ∧
    (store.find? (fun x => x.1 == q) = none →
      ∀ s, (managerList store).find? (fun t => t.name == some q) = some s →
        s.is_expired now = true →
        managerGet store now q =
          (.error (.SessionExpired q), store.filter (fun x => x.1 != s.id))) ∧
    (store.find? (fun x => x.1 == q) = none →
      (∀ e ∈ store, e.2.name ≠ some q) →
      managerGet store now q = (.error (.SessionNotFound q), store)) := by
  refine ⟨?_, ?_, ?_, ?_, ?_⟩
  · intro e hfind hexp
    unfold managerGet
    rw [hfind]
    simp [hexp]
  · intro e hfind hexp
    have hany : store.any (fun x => x.1 == q) = true :=
      List.any_eq_true.mpr
        ⟨e, List.mem_of_find?_eq_some hfind,
          by simpa using List.find?_some hfind⟩
    have hdel : managerDelete store q =
        (.ok (), store.filter (fun x => x.1 != q)) := by
      unfold managerDelete
      rw [hany]
      simp
    unfold managerGet
    rw [hfind]
    simp [hexp, hdel]
  · intro hnone s hfind hexp
    unfold managerGet
    rw [hnone, hfind]
    simp [hexp]
  · intro hnone s hfind hexp
    have hmem : s ∈ managerList store := List.mem_of_find?_eq_some hfind
    have hmem2 : s ∈ store.map Prod.snd := by
      unfold managerList at hmem
      exact List.mem_mergeSort.mp hmem
    obtain ⟨e, hemem, heq⟩ := List.mem_map.mp hmem2
    have hid : e.1 = s.id := by rw [hwf e hemem, heq]
    have hany : store.any (fun x => x.1 == s.id) = true :=
      List.any_eq_true.mpr ⟨e, hemem, by simp [hid]⟩
    have hdel : managerDelete store s.id =
        (.ok (), store.filter (fun x => x.1 != s.id)) := by
      unfold managerDelete
      rw [hany]
      simp
    unfold managerGet
    rw [hnone, hfind]
    simp [hexp, hdel]
  · intro hnone hname
    have hfNone :
        (managerList store).find? (fun t => t.name == some q) = none := by
      apply List.find?_eq_none.mpr
      intro x hx
      have hx2 : x ∈ store.map Prod.snd := by
        unfold managerList at hx
        exact List.mem_mergeSort.mp hx
      obtain ⟨e, hemem, heq⟩ := List.mem_map.mp hx2
      have hne := hname e hemem
      rw [heq] at hne
      simp [hne]
    unfold managerGet
    rw [hnone, hfNone]

/-- C5 witness: an expired record hit by direct id lookup is deleted and
reported as `SessionExpired`. -/
theorem c5_manager_get_witness :
    managerGet [("a1", sampleExpired)] 100 "a1" =
      (.error (.SessionExpired "a1"),
        ([("a1", sampleExpired)] : SessionStore).filter
          (fun x => x.1 != "a1")) :=
  (c5_manager_get [("a1", sampleExpired)] 100 "a1" (by decide)).2.1
    ("a1", sampleExpired) (by decide) (by decide)

end Bashlet
